import Mathlib

/-!
Verification of the MOEMS Q&A agent (keyword router, RAG-style pipeline,
and evaluation scorers) against its natural-language specification.

The definitions below are a shallow embedding of `src/agent.py`,
`data/knowledge_base.py` and `src/evaluation.py`: Python strings become
Lean `String`, Python `x in s` becomes `substrB x s`, `str.lower()`
becomes `toLowerS`, dictionaries of fixed records become named `def`s,
and the float scores of the evaluators become exact rationals `ℚ`.
-/

set_option maxRecDepth 40000

namespace MOEMS

/-- Embeds `MockDocument` from `data/knowledge_base.py`: `page_content`
plus a metadata pair (source, topic). -/
structure MockDocument where
  page_content : String
  source : String
  topic : String
deriving DecidableEq

/-- One entry of `KNOWLEDGE_BASE` in `data/knowledge_base.py`:
an answer, a list of source identifiers, and retrieved documents. -/
structure TopicRecord where
  answer : String
  sources : List String
  retrieved_docs : List MockDocument
deriving DecidableEq

/-- The dictionary returned by `MOEMSAgent.query` in `src/agent.py`. -/
structure ResponseEnvelope where
  question : String
  answer : String
  sources : List String
  num_docs_retrieved : Nat
  retrieved_contexts : List String
deriving DecidableEq

/-- Whether `needle` is an initial segment of `haystack` (character lists). -/
def startsWithL : List Char → List Char → Bool
  | [], _ => true
  | _ :: _, [] => false
  | a :: as, b :: bs => a == b && startsWithL as bs

/-- Whether `needle` occurs as a contiguous sublist of `haystack`;
embeds Python substring containment over character lists. -/
def containsSub (needle : List Char) : List Char → Bool
  | [] => needle.isEmpty
  | c :: t => startsWithL needle (c :: t) || containsSub needle t

/-- Embeds the Python expression `needle in haystack` on strings. -/
def substrB (needle haystack : String) : Bool :=
  containsSub needle.data haystack.data

/-- Embeds Python `str.lower()` (all source strings are ASCII). -/
def toLowerS (s : String) : String :=
  String.mk (s.data.map Char.toLower)

/-! ### Knowledge base (`data/knowledge_base.py`, `KNOWLEDGE_BASE`) -/

/-- `KNOWLEDGE_BASE["what is moems"]`. -/
def kb_what_is_moems : TopicRecord :=
  ⟨"MOEMS stands for Mathematical Olympiads for Elementary and Middle Schools. It is a mathematics competition designed for students in grades 4-8, providing an engaging way for students to develop problem-solving skills through challenging mathematical problems.",
   ["moems_overview", "moems_introduction"],
   [⟨"MOEMS stands for Mathematical Olympiads for Elementary and Middle Schools. It is a mathematics competition designed for students in grades 4-8.",
     "moems_overview", "introduction"⟩,
    ⟨"MOEMS provides an engaging way for students to develop problem-solving skills through challenging mathematical problems.",
     "moems_introduction", "introduction"⟩]⟩

/-- `KNOWLEDGE_BASE["structure"]`. -/
def kb_structure : TopicRecord :=
  ⟨"Each MOEMS contest consists of exactly 5 problems. Students have 30 minutes total to complete all 5 problems. Calculators are strictly prohibited during the contest, emphasizing mental math and problem-solving skills.",
   ["moems_structure", "moems_rules"],
   [⟨"Each MOEMS contest consists of exactly 5 problems. Students have 30 minutes total to complete all 5 problems.",
     "moems_structure", "format"⟩,
    ⟨"Calculators are strictly prohibited during MOEMS contests, emphasizing mental math and problem-solving skills.",
     "moems_rules", "equipment"⟩]⟩

/-- `KNOWLEDGE_BASE["participate"]`. -/
def kb_participate : TopicRecord :=
  ⟨"Students in grades 4 through 8 can participate in MOEMS. This includes both elementary school students (grades 4-5) and middle school students (grades 6-8). The competition is appropriate for students aged approximately 9-14 years old.",
   ["moems_eligibility"],
   [⟨"Students in grades 4 through 8 can participate in MOEMS. This includes both elementary and middle school students (grades 4-5 for elementary, 6-8 for middle school). Appropriate for ages 9-14.",
     "moems_eligibility", "participation"⟩]⟩

/-- `KNOWLEDGE_BASE["scored"]`. -/
def kb_scored : TopicRecord :=
  ⟨"Each problem in a MOEMS contest is worth 1 point. The maximum score for a single contest is 5 points (one for each problem). Teams compete based on cumulative scores across multiple contests throughout the year.",
   ["moems_scoring"],
   [⟨"Each problem is worth 1 point. Maximum score per contest is 5 points. Teams compete based on cumulative scores across multiple contests.",
     "moems_scoring", "scoring"⟩]⟩

/-- `KNOWLEDGE_BASE["calculator"]`. -/
def kb_calculator : TopicRecord :=
  ⟨"No, calculators are not allowed in MOEMS contests. Calculators are strictly prohibited. The competition emphasizes mental math and problem-solving skills without computational aids.",
   ["moems_rules"],
   [⟨"Calculators are strictly prohibited in MOEMS contests. The competition emphasizes mental math and problem-solving skills without computational aids.",
     "moems_rules", "equipment"⟩]⟩

/-- `KNOWLEDGE_BASE["example"]`. -/
def kb_example : TopicRecord :=
  ⟨"Here\x27s a sample MOEMS algebra problem: If 3x + 7 = 22, what is the value of x? Solution: x = 5. To solve, subtract 7 from both sides to get 3x = 15, then divide by 3 to get x = 5. This type of problem tests students\x27 ability to isolate variables and perform basic algebraic operations.",
   ["moems_examples"],
   [⟨"Sample Problem: If 3x + 7 = 22, what is x? Solution: Subtract 7 from both sides: 3x = 15, then divide by 3 to get x = 5. Tests variable isolation and basic algebra.",
     "moems_examples", "problems"⟩]⟩

/-- `KNOWLEDGE_BASE["strategies"]`. -/
def kb_strategies : TopicRecord :=
  ⟨"Given the 30-minute time limit for 5 problems, students have an average of 6 minutes per problem. Recommended strategy: (1) Quickly read all 5 problems first (2 minutes), (2) Start with problems that seem easiest (10 minutes for 2-3 problems), (3) Work on medium difficulty problems next (10 minutes), (4) Attempt challenging problems last (8 minutes). Time management is crucial for success in MOEMS competitions.",
   ["moems_strategies"],
   [⟨"Time management strategy: Average 6 minutes per problem. (1) Read all problems first (2 min), (2) Start with easiest (10 min), (3) Work on medium difficulty (10 min), (4) Attempt hardest last (8 min).",
     "moems_strategies", "strategy"⟩]⟩

/-- `KNOWLEDGE_BASE["time"]`. -/
def kb_time : TopicRecord :=
  ⟨"Students have 30 minutes total to complete all 5 problems in a MOEMS contest. This works out to an average of 6 minutes per problem, though students are free to allocate their time as they see fit across the problems.",
   ["moems_structure"],
   [⟨"30 minutes total for all 5 problems. Average of 6 minutes per problem, though time can be allocated as needed.",
     "moems_structure", "format"⟩]⟩

/-- `KNOWLEDGE_BASE["3rd grader"]`. -/
def kb_third_grader : TopicRecord :=
  ⟨"MOEMS is officially designed for grades 4-8. While the standard eligibility is grades 4-8, exceptional cases such as an advanced 3rd grader may be handled on a case-by-case basis by contacting MOEMS organizers directly. The competition content is generally geared toward the cognitive development of students in the 4-8 grade range.",
   ["moems_eligibility", "moems_eligibility_exceptions"],
   [⟨"MOEMS is designed for grades 4-8.", "moems_eligibility", "participation"⟩,
    ⟨"Standard eligibility is grades 4-8. Exceptional cases such as advanced 3rd graders may be handled case-by-case by contacting organizers. Content is geared toward 4-8 grade cognitive development.",
     "moems_eligibility_exceptions", "participation"⟩]⟩

/-- The default record built inline in the `else` branch of
`MOEMSAgent._find_best_match` (`src/agent.py`, lines 73-85). -/
def fallbackRecord : TopicRecord :=
  ⟨"Based on the available MOEMS documentation, I can tell you that MOEMS is a mathematics competition for grades 4-8 students. Could you be more specific about what aspect you\x27d like to know? Topics include: structure, eligibility, scoring, rules, strategies, and examples.",
   ["moems_general"],
   [⟨"MOEMS general information. Competition for grades 4-8 students.",
     "moems_general", "general"⟩]⟩

/-! ### Router (`MOEMSAgent._find_best_match`, `src/agent.py` lines 44-85)

Each `ruleN` is the boolean condition of the N-th `if`/`elif` branch,
applied to the already lowercased question. -/

/-- Condition of branch 1: `"what is moems" in q or "what's moems" in q`. -/
def rule1 (q : String) : Bool :=
  substrB "what is moems" q || substrB "what\x27s moems" q

/-- Condition of branch 2: `"structure" in q or "format" in q`. -/
def rule2 (q : String) : Bool :=
  substrB "structure" q || substrB "format" q

/-- Condition of branch 3: `"participate" in q or "who can" in q or "eligib" in q`. -/
def rule3 (q : String) : Bool :=
  substrB "participate" q || substrB "who can" q || substrB "eligib" q

/-- Condition of branch 4: `"scor" in q or "point" in q`. -/
def rule4 (q : String) : Bool :=
  substrB "scor" q || substrB "point" q

/-- Condition of branch 5: `"calculator" in q`. -/
def rule5 (q : String) : Bool :=
  substrB "calculator" q

/-- Condition of branch 6: `"example" in q or "sample problem" in q`. -/
def rule6 (q : String) : Bool :=
  substrB "example" q || substrB "sample problem" q

/-- Condition of branch 7: `"strateg" in q or "time management" in q`. -/
def rule7 (q : String) : Bool :=
  substrB "strateg" q || substrB "time management" q

/-- Condition of branch 8: `"time" in q or "how long" in q or "minutes" in q`. -/
def rule8 (q : String) : Bool :=
  substrB "time" q || substrB "how long" q || substrB "minutes" q

/-- Condition of branch 9: `"3rd grade" in q or "third grade" in q`. -/
def rule9 (q : String) : Bool :=
  substrB "3rd grade" q || substrB "third grade" q

/-- Embeds `MOEMSAgent._find_best_match`: lowercase the question, then an
ordered if/elif chain over the nine keyword rules, with the fixed
fallback record when no rule fires. -/
def find_best_match (question : String) : TopicRecord :=
  let q := toLowerS question
  if rule1 q then kb_what_is_moems
  else if rule2 q then kb_structure
  else if rule3 q then kb_participate
  else if rule4 q then kb_scored
  else if rule5 q then kb_calculator
  else if rule6 q then kb_example
  else if rule7 q then kb_strategies
  else if rule8 q then kb_time
  else if rule9 q then kb_third_grader
  else fallbackRecord

/-- Embeds `MOEMSAgent._retrieve` (minus the cosmetic `time.sleep`):
returns the sources and retrieved documents of the matched record. -/
def retrieve (question : String) : List String × List MockDocument :=
  let result := find_best_match question
  (result.sources, result.retrieved_docs)

/-- Embeds `MOEMSAgent._generate` (minus the cosmetic `time.sleep`):
re-derives the match from the question and returns its answer; the
`docs` argument is accepted and ignored exactly as in the source. -/
def generate (question : String) (_docs : List MockDocument) : String :=
  (find_best_match question).answer

/-- Embeds `MOEMSAgent.query`: retrieve, then generate, then assemble
the response envelope. -/
def query (question : String) : ResponseEnvelope :=
  let retrieval_result := retrieve question
  let answer := generate question retrieval_result.2
  ⟨question, answer, retrieval_result.1, retrieval_result.2.length,
   retrieval_result.2.map (fun doc => doc.page_content)⟩

/-- Specification-side single-match pipeline from §9 of the spec: match
once and use that one record for both the answer and the sources. -/
def querySingleMatch (question : String) : ResponseEnvelope :=
  let r := find_best_match question
  ⟨question, r.answer, r.sources, r.retrieved_docs.length,
   r.retrieved_docs.map (fun doc => doc.page_content)⟩

/-- The per-instance state of `MOEMSAgent`: beyond the immutable module
level `KNOWLEDGE_BASE`, the constructor stores only whether a tracing
client is configured; no method assigns to instance attributes. -/
structure AgentState where
  hasClient : Bool
deriving DecidableEq

/-- `MOEMSAgent.query` viewed as a state transformer on the agent
instance: the method reads no mutable instance state and writes none,
so it returns the envelope together with the unchanged state. -/
def queryWithState (a : AgentState) (question : String) :
    ResponseEnvelope × AgentState :=
  (query question, a)

/-! ### Evaluators (`src/evaluation.py`)

Float scores are embedded as exact rationals `ℚ`; every score computed
by the source is a ratio of small naturals or one of the literals
`0`, `0.5`, `0.7`, all exactly representable. -/

/-- Score record of `answer_correctness_evaluator`: the `score` field of
the returned dict, plus the matched/total counts reported in its
`comment` string (`0/0` standing for the `N/A` case). -/
structure AnswerScore where
  score : ℚ
  matched : Nat
  total : Nat
deriving DecidableEq

/-- The key-term extraction of `answer_correctness_evaluator`
(`src/evaluation.py` lines 79-96), applied to the lowercased reference:
each marker test appends at most one literal key term, in source order. -/
def extractKeyTerms (reference : String) : List String :=
  (if substrB "moems" reference then ["moems"] else []) ++
  (if substrB "grade" reference then ["grade"] else []) ++
  (if substrB "30" reference || substrB "minutes" reference then ["30"] else []) ++
  (if (substrB "5" reference || substrB "five" reference) &&
      substrB "problem" reference then ["5"] else []) ++
  (if substrB "calculator" reference then ["calculator"] else []) ++
  (if substrB "prohibit" reference || substrB "not allowed" reference
     then ["prohibit"] else []) ++
  (if substrB "point" reference then ["point"] else []) ++
  (if substrB "strateg" reference || substrB "time management" reference
     then ["strateg"] else [])

/-- Embeds `answer_correctness_evaluator` (`src/evaluation.py` lines
61-109): lowercase both texts, extract the key terms of the reference,
and score by the fraction of key terms occurring in the prediction,
with fixed default `0.7` when no key term was extracted. -/
def answer_correctness_evaluator (prediction reference : String) : AnswerScore :=
  let p := toLowerS prediction
  let key_terms := extractKeyTerms (toLowerS reference)
  if key_terms.isEmpty then
    ⟨7 / 10, 0, 0⟩
  else
    let matchCount := key_terms.countP (fun term => substrB term p)
    ⟨(matchCount : ℚ) / (key_terms.length : ℚ), matchCount, key_terms.length⟩

/-- Score record of `context_relevancy_evaluator`: the overall score and
the per-context relevance list. -/
structure ContextScore where
  score : ℚ
  per_snippet : List ℚ
deriving DecidableEq

/-- Embeds Python `str.split()` with no argument: split on runs of
whitespace, dropping empty pieces; `acc` holds the reversed current word. -/
def splitWsAux : List Char → List Char → List String
  | [], acc => if acc.isEmpty then [] else [String.mk acc.reverse]
  | c :: cs, acc =>
    if c.isWhitespace then
      if acc.isEmpty then splitWsAux cs []
      else String.mk acc.reverse :: splitWsAux cs []
    else splitWsAux cs (c :: acc)

/-- Python `s.split()` on a string. -/
def splitWs (s : String) : List String :=
  splitWsAux s.data []

/-- The stop-word list of `context_relevancy_evaluator`
(`src/evaluation.py` lines 150-152). -/
def stopWords : List String :=
  ["what", "when", "where", "who", "how", "can", "does", "should", "the", "is", "are"]

/-- The `question_words` computation of `context_relevancy_evaluator`
(`src/evaluation.py` lines 147-153): whitespace tokens of the lowercased
question of length `> 3` that are not stop words.  The source recomputes
this identical list inside each loop iteration; it does not depend on
the loop variable, so it is hoisted here. -/
def question_words (question : String) : List String :=
  (splitWs (toLowerS question)).filter
    (fun w => decide (3 < w.length) && !(stopWords.contains w))

/-- Loop body of `context_relevancy_evaluator` (`src/evaluation.py`
lines 143-159): the relevance of one context, namely the fraction of
the question words occurring in the lowercased context, with default
`0.5` when no question word survived filtering. -/
def contextRelevance (qwords : List String) (ctx : String) : ℚ :=
  let c := toLowerS ctx
  if qwords.isEmpty then 1 / 2
  else ((qwords.countP (fun w => substrB w c) : ℚ) / (qwords.length : ℚ))

/-- Embeds `context_relevancy_evaluator` (`src/evaluation.py` lines
116-167): score `0` with no per-snippet list when no contexts were
retrieved; otherwise the arithmetic mean of the per-context relevance
scores. -/
def context_relevancy_evaluator (question : String) (contexts : List String) :
    ContextScore :=
  if contexts.isEmpty then ⟨0, []⟩
  else
    let relevance_scores := contexts.map (contextRelevance (question_words question))
    ⟨relevance_scores.sum / (relevance_scores.length : ℚ), relevance_scores⟩

/-- The ten records the router can ever return: the nine entries of
`KNOWLEDGE_BASE` reachable from `_find_best_match`, plus the fallback. -/
def allRecords : List TopicRecord :=
  [kb_what_is_moems, kb_structure, kb_participate, kb_scored, kb_calculator,
   kb_example, kb_strategies, kb_time, kb_third_grader, fallbackRecord]

/-- Whether at least one of the nine router rules fires on the
lowercased question: the negation of "the final `else` branch of
`_find_best_match` is taken". -/
def anyRuleFires (question : String) : Bool :=
  let q := toLowerS question
  rule1 q || rule2 q || rule3 q || rule4 q || rule5 q ||
    rule6 q || rule7 q || rule8 q || rule9 q

/-! ### Helper lemmas -/

/-- A ratio of naturals with numerator at most denominator and positive
denominator lies in the unit interval. -/
lemma natRatio_mem_unit (m n : ℕ) (hmn : m ≤ n) (hn : 0 < n) :
    0 ≤ (m : ℚ) / (n : ℚ) ∧ (m : ℚ) / (n : ℚ) ≤ 1 := by
  constructor
  · positivity
  · rw [div_le_one (by exact_mod_cast hn)]
    exact_mod_cast hmn

/-- The arithmetic mean of a nonempty list of rationals drawn from the
unit interval lies in the unit interval. -/
lemma mean_mem_unit (l : List ℚ) (hne : l ≠ [])
    (h0 : ∀ x ∈ l, 0 ≤ x) (h1 : ∀ x ∈ l, x ≤ 1) :
    0 ≤ l.sum / (l.length : ℚ) ∧ l.sum / (l.length : ℚ) ≤ 1 := by
  have hlen : 0 < l.length := List.length_pos.mpr hne
  constructor
  · exact div_nonneg (List.sum_nonneg h0) (by positivity)
  · rw [div_le_one (by exact_mod_cast hlen)]
    have hs := List.sum_le_card_nsmul l 1 h1
    simpa using hs

/-- Unfolding of `answer_correctness_evaluator` when at least one key
term was extracted from the reference. -/
lemma answer_eval_formula (p r : String)
    (h : (extractKeyTerms (toLowerS r)).isEmpty = false) :
    answer_correctness_evaluator p r =
      ⟨((extractKeyTerms (toLowerS r)).countP
          (fun term => substrB term (toLowerS p)) : ℚ) /
         ((extractKeyTerms (toLowerS r)).length : ℚ),
       (extractKeyTerms (toLowerS r)).countP
         (fun term => substrB term (toLowerS p)),
       (extractKeyTerms (toLowerS r)).length⟩ := by
  simp [answer_correctness_evaluator, h]

/-- Unfolding of `context_relevancy_evaluator` on a nonempty context
list. -/
lemma context_eval_formula (q : String) (cs : List String)
    (h : cs.isEmpty = false) :
    context_relevancy_evaluator q cs =
      ⟨(cs.map (contextRelevance (question_words q))).sum /
         ((cs.map (contextRelevance (question_words q))).length : ℚ),
       cs.map (contextRelevance (question_words q))⟩ := by
  simp [context_relevancy_evaluator, h]

/-- Each per-context relevance score lies in the unit interval. -/
lemma contextRelevance_mem_unit (qwords : List String) (ctx : String) :
    0 ≤ contextRelevance qwords ctx ∧ contextRelevance qwords ctx ≤ 1 := by
  by_cases h : qwords.isEmpty = true
  · simp only [contextRelevance, h, if_pos]
    norm_num
  · have hf : qwords.isEmpty = false := by simpa using h
    simp only [contextRelevance, hf, Bool.false_eq_true, if_false]
    exact natRatio_mem_unit _ _ (List.countP_le_length _)
      (List.length_pos.mpr (by simpa using hf))

/-! ### Claim theorems -/

/-- C1 (counterexample): the claim "every question containing
`calculator` gets an answer containing `calculator`" fails on the code:
the question `What is MOEMS? Can I use a calculator?` contains
`calculator` (case-insensitive) but is captured by the earlier
`what is moems` rule, whose canned answer never mentions calculators. -/
theorem calculator_claim_counterexample :
    substrB "calculator" (toLowerS "What is MOEMS? Can I use a calculator?") = true ∧
    find_best_match "What is MOEMS? Can I use a calculator?" = kb_what_is_moems ∧
    substrB "calculator"
      (toLowerS (query "What is MOEMS? Can I use a calculator?").answer) = false := by
  decide

/-- C1 (amended): for every question containing `calculator`
(case-insensitive) on which none of the three higher-priority router
rules whose answers omit the word — rule 1 (`what is moems`/`what's
moems`), rule 3 (`participate`/`who can`/`eligib`) and rule 4
(`scor`/`point`) — fires, the answer returned by `query` contains
`calculator` (case-insensitive); rule 2 may still fire, but its
`structure` answer also contains `calculator`. -/
theorem calculator_question_answer_amended (q : String)
    (hcalc : substrB "calculator" (toLowerS q) = true)
    (h1 : rule1 (toLowerS q) = false)
    (h3 : rule3 (toLowerS q) = false)
    (h4 : rule4 (toLowerS q) = false) :
    substrB "calculator" (toLowerS (query q).answer) = true := by
  have h5 : rule5 (toLowerS q) = true := hcalc
  by_cases h2 : rule2 (toLowerS q) = true
  · have hm : find_best_match q = kb_structure := by
      simp [find_best_match, h1, h2]
    have ha : (query q).answer = kb_structure.answer := by
      simp [query, generate, hm]
    rw [ha]
    decide
  · have h2f : rule2 (toLowerS q) = false := by simpa using h2
    have hm : find_best_match q = kb_calculator := by
      simp [find_best_match, h1, h2f, h3, h4, h5]
    have ha : (query q).answer = kb_calculator.answer := by
      simp [query, generate, hm]
    rw [ha]
    decide

/-- C1 (witness): the amended statement applied to the concrete
question `calculator`, on which none of rules 1, 3, 4 fires. -/
theorem calculator_question_answer_amended_witness :
    substrB "calculator" (toLowerS "calculator") = true ∧
    rule1 (toLowerS "calculator") = false ∧
    rule3 (toLowerS "calculator") = false ∧
    rule4 (toLowerS "calculator") = false ∧
    substrB "calculator" (toLowerS (query "calculator").answer) = true :=
  ⟨by decide, by decide, by decide, by decide,
   calculator_question_answer_amended "calculator"
     (by decide) (by decide) (by decide) (by decide)⟩

/-- C2: for every question string the router returns one of the nine
knowledge-base records or the fixed fallback record (it is total and
never fails), and `query` always assembles a complete response envelope
whose every field is derived from that record. -/
theorem router_total_query_complete (q : String) :
    find_best_match q ∈ allRecords ∧
    query q = ⟨q, (find_best_match q).answer, (find_best_match q).sources,
      (find_best_match q).retrieved_docs.length,
      (find_best_match q).retrieved_docs.map (fun d => d.page_content)⟩ := by
  constructor
  · simp only [find_best_match]
    split_ifs <;> simp [allRecords]
  · rfl

/-- C3: the answer and the sources of the envelope returned by `query`
come from the same router match — `query(q).answer = match(q).answer`
and `query(q).sources = match(q).sources` — so the double-match
pipeline is observably equivalent to the single-match pipeline. -/
theorem double_match_single_match_equiv (q : String) :
    (query q).answer = (find_best_match q).answer ∧
    (query q).sources = (find_best_match q).sources ∧
    query q = querySingleMatch q :=
  ⟨rfl, rfl, rfl⟩

/-- C4: on the question `What is the scoring structure?` both rule 2
(`structure`) and rule 4 (`scor`) fire, and first-match-wins routing
returns the `structure` record, not the (distinct) `scored` record. -/
theorem rule_precedence_scoring_structure :
    rule2 (toLowerS "What is the scoring structure?") = true ∧
    rule4 (toLowerS "What is the scoring structure?") = true ∧
    find_best_match "What is the scoring structure?" = kb_structure ∧
    kb_structure ≠ kb_scored := by
  decide

/-- C5: `query` viewed as a state transformer on the agent instance
leaves the agent state unchanged, and a second call with the identical
question yields an envelope with identical answer, sources and
retrieved contexts: the output is a deterministic function of the
question alone. -/
theorem query_deterministic_stateless (a : AgentState) (q : String) :
    (queryWithState a q).2 = a ∧
    (queryWithState (queryWithState a q).2 q).1.answer =
      (queryWithState a q).1.answer ∧
    (queryWithState (queryWithState a q).2 q).1.sources =
      (queryWithState a q).1.sources ∧
    (queryWithState (queryWithState a q).2 q).1.retrieved_contexts =
      (queryWithState a q).1.retrieved_contexts :=
  ⟨rfl, rfl, rfl, rfl⟩

/-- C6: scoring the empty produced answer against the reference
`MOEMS is for grades 4-8, 5 problems, 30 minutes, calculators
prohibited` extracts at least 5 key terms, matches 0 of them, and
returns score 0. -/
theorem empty_answer_scores_zero :
    (answer_correctness_evaluator ""
      "MOEMS is for grades 4-8, 5 problems, 30 minutes, calculators prohibited").matched = 0 ∧
    5 ≤ (answer_correctness_evaluator ""
      "MOEMS is for grades 4-8, 5 problems, 30 minutes, calculators prohibited").total ∧
    (answer_correctness_evaluator ""
      "MOEMS is for grades 4-8, 5 problems, 30 minutes, calculators prohibited").score = 0 := by
  refine ⟨by decide, by decide, ?_⟩
  rw [answer_eval_formula _ _ (by decide)]
  have hc : (extractKeyTerms (toLowerS
      "MOEMS is for grades 4-8, 5 problems, 30 minutes, calculators prohibited")).countP
      (fun term => substrB term (toLowerS "")) = 0 := by decide
  dsimp only
  rw [hc]
  norm_num

/-- C7: both evaluator scores always lie in the closed unit interval:
the key-term ratio, the `0.7` empty-term default, the `0` empty-context
case, the `0.5` empty-question-token default, and the mean of
per-context ratios. -/
theorem scores_in_unit_interval :
    (∀ p r, 0 ≤ (answer_correctness_evaluator p r).score ∧
      (answer_correctness_evaluator p r).score ≤ 1) ∧
    (∀ q cs, 0 ≤ (context_relevancy_evaluator q cs).score ∧
      (context_relevancy_evaluator q cs).score ≤ 1) := by
  constructor
  · intro p r
    by_cases h : (extractKeyTerms (toLowerS r)).isEmpty = true
    · have he : answer_correctness_evaluator p r = ⟨7 / 10, 0, 0⟩ := by
        simp [answer_correctness_evaluator, h]
      rw [he]
      norm_num
    · have hf : (extractKeyTerms (toLowerS r)).isEmpty = false := by simpa using h
      rw [answer_eval_formula p r hf]
      exact natRatio_mem_unit _ _ (List.countP_le_length _)
        (List.length_pos.mpr (by simpa using hf))
  · intro q cs
    by_cases h : cs.isEmpty = true
    · have he : context_relevancy_evaluator q cs = ⟨0, []⟩ := by
        simp [context_relevancy_evaluator, h]
      rw [he]
      norm_num
    · have hf : cs.isEmpty = false := by simpa using h
      have hne : cs ≠ [] := by simpa using hf
      rw [context_eval_formula q cs hf]
      refine mean_mem_unit _ ?_ ?_ ?_
      · intro hcontra
        exact hne (by simpa using hcontra)
      · intro x hx
        obtain ⟨s, _, rfl⟩ := List.mem_map.mp hx
        exact (contextRelevance_mem_unit _ _).1
      · intro x hx
        obtain ⟨s, _, rfl⟩ := List.mem_map.mp hx
        exact (contextRelevance_mem_unit _ _).2

/-- C8: on every question on which none of the nine router rules fires,
`query` returns the fixed fallback envelope — source `moems_general`,
exactly one snippet — and the fallback answer contains `grades 4-8` and
names the topics structure, eligibility, scoring, rules, strategies and
examples. -/
theorem unmatched_question_fallback (q : String)
    (h : anyRuleFires q = false) :
    query q = ⟨q, fallbackRecord.answer, ["moems_general"], 1,
      ["MOEMS general information. Competition for grades 4-8 students."]⟩ ∧
    substrB "grades 4-8" (toLowerS fallbackRecord.answer) = true ∧
    substrB "structure" (toLowerS fallbackRecord.answer) = true ∧
    substrB "eligibility" (toLowerS fallbackRecord.answer) = true ∧
    substrB "scoring" (toLowerS fallbackRecord.answer) = true ∧
    substrB "rules" (toLowerS fallbackRecord.answer) = true ∧
    substrB "strategies" (toLowerS fallbackRecord.answer) = true ∧
    substrB "examples" (toLowerS fallbackRecord.answer) = true := by
  obtain ⟨h1, h2, h3, h4, h5, h6, h7, h8, h9⟩ :
      rule1 (toLowerS q) = false ∧ rule2 (toLowerS q) = false ∧
      rule3 (toLowerS q) = false ∧ rule4 (toLowerS q) = false ∧
      rule5 (toLowerS q) = false ∧ rule6 (toLowerS q) = false ∧
      rule7 (toLowerS q) = false ∧ rule8 (toLowerS q) = false ∧
      rule9 (toLowerS q) = false := by
    simpa [anyRuleFires, Bool.or_eq_false_iff, and_assoc] using h
  have hm : find_best_match q = fallbackRecord := by
    simp [find_best_match, h1, h2, h3, h4, h5, h6, h7, h8, h9]
  refine ⟨?_, by decide, by decide, by decide, by decide, by decide,
    by decide, by decide⟩
  have he : query q = ⟨q, (find_best_match q).answer,
      (find_best_match q).sources, (find_best_match q).retrieved_docs.length,
      (find_best_match q).retrieved_docs.map (fun d => d.page_content)⟩ := rfl
  rw [he, hm]
  rfl

/-- C8 (witness): the fallback statement applied to the concrete
question `hello`, on which no router rule fires. -/
theorem unmatched_question_fallback_witness :
    anyRuleFires "hello" = false ∧
    query "hello" = ⟨"hello", fallbackRecord.answer, ["moems_general"], 1,
      ["MOEMS general information. Competition for grades 4-8 students."]⟩ :=
  ⟨by decide, (unmatched_question_fallback "hello" (by decide)).1⟩

/-- C9: when the reference contains `minutes` but not `30`, the
extracted key term is the literal string `30`, so a produced answer
containing `minutes` but not `30` is not credited: with both texts
equal to `minutes`, the extracted term set is `["30"]` and the score is
0 rather than 1. -/
theorem minutes_marker_is_literal_30 :
    substrB "minutes" (toLowerS "minutes") = true ∧
    substrB "30" (toLowerS "minutes") = false ∧
    extractKeyTerms (toLowerS "minutes") = ["30"] ∧
    (answer_correctness_evaluator "minutes" "minutes").matched = 0 ∧
    (answer_correctness_evaluator "minutes" "minutes").total = 1 ∧
    (answer_correctness_evaluator "minutes" "minutes").score = 0 := by
  refine ⟨by decide, by decide, by decide, by decide, by decide, ?_⟩
  rw [answer_eval_formula _ _ (by decide)]
  have hc : (extractKeyTerms (toLowerS "minutes")).countP
      (fun term => substrB term (toLowerS "minutes")) = 0 := by decide
  dsimp only
  rw [hc]
  norm_num

/-- C10: the question tokenizer splits only on whitespace and keeps
punctuation, so the sole surviving token of `What is MOEMS?` is
`moems?`; every context list whose lowercased members all lack the
exact substring `moems?` receives per-context relevance 0 throughout
and overall score 0. -/
theorem question_token_keeps_punctuation (snippets : List String)
    (hne : snippets ≠ [])
    (h : ∀ s ∈ snippets, substrB "moems?" (toLowerS s) = false) :
    question_words "What is MOEMS?" = ["moems?"] ∧
    (context_relevancy_evaluator "What is MOEMS?" snippets).score = 0 ∧
    ∀ x ∈ (context_relevancy_evaluator "What is MOEMS?" snippets).per_snippet,
      x = 0 := by
  have hqw : question_words "What is MOEMS?" = ["moems?"] := by decide
  have hf : snippets.isEmpty = false := by
    cases snippets with
    | nil => exact absurd rfl hne
    | cons a l => rfl
  have hrel : ∀ s ∈ snippets,
      contextRelevance (question_words "What is MOEMS?") s = 0 := by
    intro s hs
    rw [hqw]
    simp [contextRelevance, List.countP_cons, List.countP_nil, h s hs]
  have hsum : (snippets.map
      (contextRelevance (question_words "What is MOEMS?"))).sum = 0 := by
    refine List.sum_eq_zero ?_
    intro x hx
    obtain ⟨s, hs, rfl⟩ := List.mem_map.mp hx
    exact hrel s hs
  refine ⟨hqw, ?_, ?_⟩
  · rw [context_eval_formula _ _ hf]
    dsimp only
    rw [hsum]
    exact zero_div _
  · rw [context_eval_formula _ _ hf]
    dsimp only
    intro x hx
    obtain ⟨s, hs, rfl⟩ := List.mem_map.mp hx
    exact hrel s hs

/-- C10 (witness): the punctuation statement applied to the concrete
context list `["MOEMS is a math competition"]`, whose only member lacks
the substring `moems?`. -/
theorem question_token_keeps_punctuation_witness :
    (["MOEMS is a math competition"] : List String) ≠ [] ∧
    (∀ s ∈ (["MOEMS is a math competition"] : List String),
      substrB "moems?" (toLowerS s) = false) ∧
    (context_relevancy_evaluator "What is MOEMS?"
      ["MOEMS is a math competition"]).score = 0 :=
  ⟨by decide, by decide,
   (question_token_keeps_punctuation ["MOEMS is a math competition"]
     (by decide) (by decide)).2.1⟩

end MOEMS
